import Mathlib

set_option maxRecDepth 8000

/-!
Shallow embedding of the certificate and signing layer of the
`yubikey.rs` PIV driver (files `src/certificate.rs` and
`src/yubikey_signer.rs`), together with theorems settling the
specification's claims about the card object codec, the algorithm
resolver and the PKCS#1 v1.5 signing path.

Bytes are modelled as `Nat` (values < 256 in every reachable state),
byte strings as `List Nat`.  Rust `Result` values are modelled with
`Except`; functions that can `panic!` (or abort through an arithmetic
underflow) return an `Outcome`, whose `panic` constructor records the
abort.
-/

/-- Error kinds of the crate (`crate::error::Error`), restricted to the
variants the embedded code can produce. -/
inductive Error where
  | InvalidObject
  | AlgorithmError
  | BufferTooSmall
  | GenericError
  | NotFound
deriving DecidableEq

deriving instance DecidableEq for Except

/-- Result of running a Rust function that may return a value, return an
error, or abort the process via `panic!` / arithmetic underflow. -/
inductive Outcome (ε α : Type) where
  | ok (a : α)
  | error (e : ε)
  | panic
deriving DecidableEq

/-- Certificate object tag bytes (`TAG_CERT`, `TAG_CERT_COMPRESS`,
`TAG_CERT_LRC` in `certificate.rs`). -/
def TAG_CERT : Nat := 0x70

/-- Tag of the compression-info TLV. -/
def TAG_CERT_COMPRESS : Nat := 0x71

/-- Tag of the LRC trailer TLV. -/
def TAG_CERT_LRC : Nat := 0xFE

/-- Modelled from the spec: the crate constant `CB_OBJ_MAX`
(`consts.rs`, not under `src/`), the maximum card object size in bytes;
the upstream crate and yubico-piv-tool fix it at 3063. -/
def CB_OBJ_MAX : Nat := 3063

/-- Modelled from the spec (§4.1): BER short/long length encoding as
written by the TLV codec — one byte if the length is below `0x80`, else
a `0x81`- or `0x82`-prefixed big-endian length. -/
def berLenEncode (n : Nat) : List Nat :=
  if n < 0x80 then [n]
  else if n < 0x100 then [0x81, n]
  else [0x82, n / 0x100, n % 0x100]

/-- Modelled from the spec (§4.1): BER short/long length decoding,
returning the decoded length and the remaining bytes; `none` on a
malformed length encoding. -/
def berLenDecode : List Nat → Option (Nat × List Nat)
  | [] => none
  | b :: rest =>
    if b < 0x80 then some (b, rest)
    else if b = 0x81 then
      match rest with
      | l :: r => if 0x80 ≤ l then some (l, r) else none
      | [] => none
    else if b = 0x82 then
      match rest with
      | h :: l :: r =>
        let n := h * 0x100 + l
        if 0x100 ≤ n then some (n, r) else none
      | _ => none
    else none

/-- Split a byte string into its first `n` bytes and the rest; `none`
when fewer than `n` bytes are available. -/
def takeExact (n : Nat) (xs : List Nat) : Option (List Nat × List Nat) :=
  if n ≤ xs.length then some (xs.take n, xs.drop n) else none

/-- The encoded TLV record: one tag byte, the BER length, the value. -/
def Tlv.encoded (tag : Nat) (value : List Nat) : List Nat :=
  tag :: (berLenEncode value.length ++ value)

/-- Modelled from the spec (§4.1): `Tlv::write` (in `serialization.rs`,
not under `src/`) appends a one-byte tag, a BER short/long length and
the value to the buffer, failing with `BufferTooSmall` when the
remaining capacity `cap` is insufficient.  The model returns the bytes
written. -/
def Tlv.write (cap : Nat) (tag : Nat) (value : List Nat) : Except Error (List Nat) :=
  let enc := Tlv.encoded tag value
  if enc.length ≤ cap then Except.ok enc else Except.error Error.BufferTooSmall

/-- Modelled from the spec (§4.1): `Tlv::parse_single` (in
`serialization.rs`, not under `src/`) reads exactly one TLV record from
the front of the buffer, verifies the tag, and returns the value,
ignoring any trailing bytes; it fails with `InvalidObject` on a tag
mismatch or a malformed length encoding. -/
def Tlv.parse_single (buf : List Nat) (tag : Nat) : Except Error (List Nat) :=
  match buf with
  | [] => Except.error Error.InvalidObject
  | t :: rest =>
    if t = tag then
      match berLenDecode rest with
      | some (n, r) =>
        match takeExact n r with
        | some (v, _) => Except.ok v
        | none => Except.error Error.InvalidObject
      | none => Except.error Error.InvalidObject
    else Except.error Error.InvalidObject

/-- How a certificate is stored within a YubiKey (`CertInfo` in
`certificate.rs`). -/
inductive CertInfo where
  | Uncompressed
  | Gzip
deriving DecidableEq

/-- The `From<CertInfo> for u8` conversion in `certificate.rs`. -/
def CertInfo.toU8 : CertInfo → Nat
  | CertInfo.Uncompressed => 0x00
  | CertInfo.Gzip => 0x01

/-- The `TryFrom<u8> for CertInfo` conversion in `certificate.rs`:
`0x00` is `Uncompressed`, `0x01` is `Gzip`, any other byte is an
`InvalidObject` decode error. -/
def CertInfo.try_from (value : Nat) : Except Error CertInfo :=
  if value = 0x00 then Except.ok CertInfo.Uncompressed
  else if value = 0x01 then Except.ok CertInfo.Gzip
  else Except.error Error.InvalidObject

/-- Modelled from the spec (§3): a key slot, reduced to its derived
card object id (an opaque integer; `SlotId::object_id` lives in
`piv.rs`, not under `src/`). -/
abbrev SlotId : Type := Nat

/-- Modelled from the spec (§3): the object id derived from a slot. -/
def SlotId.object_id (slot : SlotId) : Nat := slot

/-- Modelled from the spec (§6): the card's object storage, a partial
map from object ids to stored byte strings. -/
abbrev Store : Type := Nat → Option (List Nat)

/-- Modelled from the spec (§4.2, §6): `Transaction::save_object`
persists the bytes at the object id; per §4.2 a zero-length payload is
a deletion (the PIV card removes the object), leaving the object
absent. -/
def save_object (st : Store) (id : Nat) (data : List Nat) : Store :=
  fun i => if i = id then (if data = [] then none else some data) else st i

/-- Modelled from the spec (§6): `Transaction::fetch_object` returns
the stored bytes and fails if the object is absent. -/
def fetch_object (st : Store) (id : Nat) : Except Error (List Nat) :=
  match st id with
  | some b => Except.ok b
  | none => Except.error Error.NotFound

/-- `read_certificate` (`certificate.rs` lines 193–213): a failed fetch
yields an empty buffer; a buffer headed by `TAG_CERT` is TLV-parsed,
with a parse failure again yielding empty; any other non-empty buffer
is returned unchanged.  Indexing `buf[0]` on an empty fetched buffer
panics, recorded by the `panic` outcome. -/
def read_certificate (st : Store) (slot : SlotId) : Outcome Error (List Nat) :=
  match fetch_object st (SlotId.object_id slot) with
  | Except.error _ => Outcome.ok []
  | Except.ok buf =>
    match buf with
    | [] => Outcome.panic
    | b :: _ =>
      if b = TAG_CERT then
        match Tlv.parse_single buf TAG_CERT with
        | Except.ok v => Outcome.ok v
        | Except.error _ => Outcome.ok []
      else Outcome.ok buf

/-- `write_certificate` (`certificate.rs` lines 216–238): absent data
saves a zero-length object; otherwise the certificate TLV, the
compression-info TLV and the empty LRC trailer TLV are encoded into a
buffer of capacity `CB_OBJ_MAX` and saved in one `save_object` call,
which is reached only after all three TLV writes succeed. -/
def write_certificate (st : Store) (slot : SlotId) :
    Option (List Nat) → CertInfo → Except Error Store
  | none, _ => Except.ok (save_object st (SlotId.object_id slot) [])
  | some data, certinfo => do
    let e1 ← Tlv.write CB_OBJ_MAX TAG_CERT data
    let e2 ← Tlv.write (CB_OBJ_MAX - e1.length) TAG_CERT_COMPRESS [certinfo.toU8]
    let e3 ← Tlv.write (CB_OBJ_MAX - e1.length - e2.length) TAG_CERT_LRC []
    pure (save_object st (SlotId.object_id slot) (e1 ++ e2 ++ e3))

/-- Total length of the three-TLV certificate object encoding for a
certificate byte string of the given length: certificate TLV, 3-byte
compression TLV, 2-byte trailer TLV. -/
def certObjectLen (n : Nat) : Nat :=
  (1 + (berLenEncode n).length + n) + 3 + 2

/-- DER content bytes of the OID `rsaEncryption` (1.2.840.113549.1.1.1,
`RSA_ENCRYPTION` in the rfc5912 OID database). -/
def RSA_ENCRYPTION : List Nat := [0x2a, 0x86, 0x48, 0x86, 0xf7, 0x0d, 0x01, 0x01, 0x01]

/-- DER content bytes of `sha256WithRSAEncryption` (1.2.840.113549.1.1.11). -/
def SHA_256_WITH_RSA_ENCRYPTION : List Nat := [0x2a, 0x86, 0x48, 0x86, 0xf7, 0x0d, 0x01, 0x01, 0x0b]

/-- DER content bytes of `id-ecPublicKey` (1.2.840.10045.2.1). -/
def ID_EC_PUBLIC_KEY : List Nat := [0x2a, 0x86, 0x48, 0xce, 0x3d, 0x02, 0x01]

/-- DER content bytes of `ecdsa-with-SHA256` (1.2.840.10045.4.3.2). -/
def ECDSA_WITH_SHA_256 : List Nat := [0x2a, 0x86, 0x48, 0xce, 0x3d, 0x04, 0x03, 0x02]

/-- DER content bytes of `secp256r1` (1.2.840.10045.3.1.7). -/
def SECP_256_R_1 : List Nat := [0x2a, 0x86, 0x48, 0xce, 0x3d, 0x03, 0x01, 0x07]

/-- DER content bytes of `secp384r1` (1.3.132.0.34). -/
def SECP_384_R_1 : List Nat := [0x2b, 0x81, 0x04, 0x00, 0x22]

/-- DER content bytes of `id-sha256` (2.16.840.1.101.3.4.2.1). -/
def ID_SHA_256 : List Nat := [0x60, 0x86, 0x48, 0x01, 0x65, 0x03, 0x04, 0x02, 0x01]

/-- An ASN.1 `AlgorithmIdentifier`: algorithm OID (content bytes) plus
optional parameters, kept as the raw value bytes of the `Any`. -/
structure AlgorithmIdentifier where
  oid : List Nat
  parameters : Option (List Nat)
deriving DecidableEq

/-- A `SubjectPublicKeyInfo` descriptor: algorithm identifier plus the
raw content bytes of the `subjectPublicKey` BIT STRING. -/
structure Spki where
  algorithm : AlgorithmIdentifier
  subject_public_key : List Nat
deriving DecidableEq

/-- Modelled from the spec (DER, external `der` crate): validity of OID
content bytes as accepted by `ObjectIdentifier::try_from` — non-empty,
with the continuation bit clear on the final byte. -/
def isValidOidContent (v : List Nat) : Bool :=
  !v.isEmpty && v.getLastD 0 < 0x80

/-- Modelled from the spec / PKCS#1 (external `rsa` crate): parse one
DER INTEGER, returning its content bytes and the remaining input. -/
def parseDerInt (xs : List Nat) : Option (List Nat × List Nat) :=
  match xs with
  | 0x02 :: rest =>
    match berLenDecode rest with
    | some (n, r) => takeExact n r
    | none => none
  | _ => none

/-- Strip the single leading zero byte of a DER unsigned-integer
content, as the `der` crate's `UintRef` does. -/
def uintBytes (m : List Nat) : List Nat :=
  match m with
  | 0x00 :: rest => rest
  | other => other

/-- Modelled from the spec / PKCS#1 (external `rsa` crate):
`RsaPublicKey::from_der` parses `SEQUENCE { modulus INTEGER,
publicExponent INTEGER }`, consuming the whole input, and exposes the
modulus as an unsigned integer.  The model returns the modulus content
bytes (leading zero stripped). -/
def rsaPublicKey_from_der (xs : List Nat) : Option (List Nat) :=
  match xs with
  | 0x30 :: rest =>
    match berLenDecode rest with
    | some (n, r) =>
      match takeExact n r with
      | some (content, trailing) =>
        if trailing = [] then
          match parseDerInt content with
          | some (m, r2) =>
            match parseDerInt r2 with
            | some (_, r3) => if r3 = [] then some (uintBytes m) else none
            | none => none
          | none => none
        else none
      | none => none
    | none => none
  | _ => none

/-- `get_em_len` (`yubikey_signer.rs` lines 124–130): decode the
embedded PKCS#1 RSA public key and return the modulus byte length;
`AlgorithmError` when the decode fails. -/
def get_em_len (spki : Spki) : Except Error Nat :=
  match rsaPublicKey_from_der spki.subject_public_key with
  | some m => Except.ok m.length
  | none => Except.error Error.AlgorithmError

/-- `get_named_curve_parameter` (`yubikey_signer.rs` lines 132–139):
read the parameters as an OID; `GenericError` when absent or not a
valid OID. -/
def get_named_curve_parameter (alg_id : AlgorithmIdentifier) : Except Error (List Nat) :=
  match alg_id.parameters with
  | some params => if isValidOidContent params then Except.ok params else Except.error Error.GenericError
  | none => Except.error Error.GenericError

/-- The concrete PIV algorithm identifiers (`piv::AlgorithmId`). -/
inductive AlgorithmId where
  | Rsa1024
  | Rsa2048
  | EccP256
  | EccP384
deriving DecidableEq

/-- `get_alg_id` (`yubikey_signer.rs` lines 141–161): RSA keys are
classified by modulus byte length (128 ⇒ `Rsa1024`, 256 ⇒ `Rsa2048`),
EC keys by named curve (secp256r1 ⇒ `EccP256`, secp384r1 ⇒ `EccP384`);
every failure path — decode failure (`.unwrap()`), unsupported modulus
length, unrecognized curve, unsupported top-level OID — is a
`panic!()`, never a returned error. -/
def get_alg_id (spki : Spki) : Outcome Error AlgorithmId :=
  if spki.algorithm.oid = RSA_ENCRYPTION then
    match get_em_len spki with
    | Except.error _ => Outcome.panic
    | Except.ok em_len =>
      if em_len = 128 then Outcome.ok AlgorithmId.Rsa1024
      else if em_len = 256 then Outcome.ok AlgorithmId.Rsa2048
      else Outcome.panic
  else if spki.algorithm.oid = ID_EC_PUBLIC_KEY then
    match get_named_curve_parameter spki.algorithm with
    | Except.error _ => Outcome.panic
    | Except.ok named_curve =>
      if named_curve = SECP_256_R_1 then Outcome.ok AlgorithmId.EccP256
      else if named_curve = SECP_384_R_1 then Outcome.ok AlgorithmId.EccP384
      else Outcome.panic
  else Outcome.panic

/-- `get_sig_alg_from_spki` (`yubikey_signer.rs` lines 116–122): EC
keys map to ECDSA-with-SHA-256, everything else to
SHA-256-with-RSA-encryption. -/
def get_sig_alg_from_spki (spki : Spki) : List Nat :=
  if ID_EC_PUBLIC_KEY = spki.algorithm.oid then ECDSA_WITH_SHA_256
  else SHA_256_WITH_RSA_ENCRYPTION

/-- `signature_algorithm_identifier` (`yubikey_signer.rs` lines
104–114): always `Ok`, with a NULL parameter (value bytes empty). -/
def signature_algorithm_identifier (spki : Spki) : Except Unit AlgorithmIdentifier :=
  Except.ok { oid := get_sig_alg_from_spki spki, parameters := some [] }

/-- One DER TLV with the given tag byte and content. -/
def derTlv (tag : Nat) (content : List Nat) : List Nat :=
  tag :: (berLenEncode content.length ++ content)

/-- DER encoding of the `DigestInfo` built by `try_sign` (lines
184–190): `SEQUENCE { SEQUENCE { OID id-sha256, NULL }, OCTET STRING
digest }`, serialized by the external `der` crate. -/
def derDigestInfo (digest : List Nat) : List Nat :=
  derTlv 0x30 (derTlv 0x30 (derTlv 0x06 ID_SHA_256 ++ [0x05, 0x00]) ++ derTlv 0x04 digest)

/-- `try_sign` (`yubikey_signer.rs` lines 177–235), with the message
already hashed (`digest` stands for `D::digest(msg)`) and the external
`sign_data` primitive passed as an oracle.  On the RSA branch the
EMSA-PKCS1-v1.5 block `00 01 FF… 00 T` of total modulus length is
built — the unchecked `em_len - tlen - 3` underflows (a panic) when the
modulus is too small — and a hardware error is printed and then
`panic!`ed; on the EC branch the raw digest is passed and a hardware
error is returned as a signing error.  The mutex around the hardware
handle always succeeds in this single-threaded model. -/
def try_sign (spki : Spki) (digest : List Nat)
    (sign_data : List Nat → AlgorithmId → Except Unit (List Nat)) : Outcome Unit (List Nat) :=
  let oid := get_sig_alg_from_spki spki
  if oid = SHA_256_WITH_RSA_ENCRYPTION then
    let t := derDigestInfo digest
    match get_em_len spki with
    | Except.error _ => Outcome.error ()
    | Except.ok em_len =>
      match get_alg_id spki with
      | Outcome.panic => Outcome.panic
      | Outcome.error _ => Outcome.panic
      | Outcome.ok alg =>
        let tlen := t.length
        if em_len < tlen + 3 then Outcome.panic
        else
          let em := [0x00, 0x01] ++ List.replicate (em_len - tlen - 3) 0xFF ++ [0x00] ++ t
          match sign_data em alg with
          | Except.ok s => Outcome.ok s
          | Except.error _ => Outcome.panic
  else
    match get_alg_id spki with
    | Outcome.panic => Outcome.panic
    | Outcome.error _ => Outcome.panic
    | Outcome.ok alg =>
      match sign_data digest alg with
      | Except.ok s => Outcome.ok s
      | Except.error _ => Outcome.error ()

/-- A sample PKCS#1 `RSAPublicKey` DER encoding with an `n`-byte
modulus (content `0x00` then `n` bytes `0xFF`) and exponent 65537, used
to witness the theorems at concrete inputs. -/
def sampleRsaKeyDer (n : Nat) : List Nat :=
  derTlv 0x30 (derTlv 0x02 (0x00 :: List.replicate n 0xFF) ++ derTlv 0x02 [0x01, 0x00, 0x01])

/-- A sample RSA `SubjectPublicKeyInfo` with an `n`-byte modulus. -/
def sampleRsaSpki (n : Nat) : Spki :=
  { algorithm := { oid := RSA_ENCRYPTION, parameters := some [0x05, 0x00] }
    subject_public_key := sampleRsaKeyDer n }

/-- A sample EC `SubjectPublicKeyInfo` with the given named curve. -/
def sampleEcSpki (curve : List Nat) : Spki :=
  { algorithm := { oid := ID_EC_PUBLIC_KEY, parameters := some curve }
    subject_public_key := List.replicate 65 0x04 }

/-! ### Helper lemmas about the codec -/

theorem berLenEncode_length (n : Nat) :
    (berLenEncode n).length = if n < 0x80 then 1 else if n < 0x100 then 2 else 3 := by
  unfold berLenEncode
  split_ifs <;> rfl

theorem berLenEncode_length_pos (n : Nat) : 1 ≤ (berLenEncode n).length := by
  rw [berLenEncode_length]
  split_ifs <;> omega

theorem berLenDecode_encode (n : Nat) (rest : List Nat) (_h : n ≤ 0xFFFF) :
    berLenDecode (berLenEncode n ++ rest) = some (n, rest) := by
  unfold berLenEncode
  by_cases h1 : n < 0x80
  · simp only [if_pos h1, List.cons_append, List.nil_append, berLenDecode, if_pos h1]
  · by_cases h2 : n < 0x100
    · have h3 : 0x80 ≤ n := Nat.not_lt.mp h1
      simp only [if_neg h1, if_pos h2, List.cons_append, List.nil_append, berLenDecode]
      norm_num [h3]
    · have h3 : 0x100 ≤ n := Nat.not_lt.mp h2
      have h4 : n / 0x100 * 0x100 + n % 0x100 = n := by omega
      simp only [if_neg h1, if_neg h2, List.cons_append, List.nil_append, berLenDecode]
      norm_num [h4, h3]

theorem takeExact_append (l rest : List Nat) : takeExact l.length (l ++ rest) = some (l, rest) := by
  unfold takeExact
  rw [if_pos (by simp), List.take_left, List.drop_left]

theorem parse_single_encoded (C rest : List Nat) (h : C.length ≤ 0xFFFF) :
    Tlv.parse_single (Tlv.encoded TAG_CERT C ++ rest) TAG_CERT = Except.ok C := by
  have hd := berLenDecode_encode C.length (C ++ rest) h
  simp only [Tlv.encoded, List.cons_append, List.append_assoc, Tlv.parse_single, if_pos rfl, hd,
    takeExact_append, if_true]

theorem fetch_save_nonempty (st : Store) (id : Nat) (bs : List Nat) (h : bs ≠ []) :
    fetch_object (save_object st id bs) id = Except.ok bs := by
  unfold fetch_object save_object
  simp [h]

theorem fetch_save_empty (st : Store) (id : Nat) :
    fetch_object (save_object st id []) id = Except.error Error.NotFound := by
  unfold fetch_object save_object
  simp

theorem except_ok_bind {ε α β : Type} (a : α) (f : α → Except ε β) :
    (Except.ok a >>= f : Except ε β) = f a := rfl

theorem write_certificate_ok (st : Store) (slot : SlotId) (C : List Nat) (ci : CertInfo)
    (h : certObjectLen C.length ≤ CB_OBJ_MAX) :
    write_certificate st slot (some C) ci =
      Except.ok (save_object st (SlotId.object_id slot)
        (Tlv.encoded TAG_CERT C ++
          ([TAG_CERT_COMPRESS, 0x01, ci.toU8] ++ [TAG_CERT_LRC, 0x00]))) := by
  have he1 : (Tlv.encoded TAG_CERT C).length + 5 ≤ CB_OBJ_MAX := by
    unfold certObjectLen CB_OBJ_MAX at h
    simp only [Tlv.encoded, List.length_cons, List.length_append]
    unfold CB_OBJ_MAX
    omega
  have h1 : Tlv.write CB_OBJ_MAX TAG_CERT C = Except.ok (Tlv.encoded TAG_CERT C) := by
    simp only [Tlv.write]
    rw [if_pos (by omega)]
  have hl2 : (Tlv.encoded TAG_CERT_COMPRESS [ci.toU8]).length = 3 := rfl
  have h2 : Tlv.write (CB_OBJ_MAX - (Tlv.encoded TAG_CERT C).length) TAG_CERT_COMPRESS [ci.toU8]
      = Except.ok [TAG_CERT_COMPRESS, 0x01, ci.toU8] := by
    simp only [Tlv.write]
    rw [if_pos (by rw [hl2]; omega)]
    rfl
  have h3 : Tlv.write (CB_OBJ_MAX - (Tlv.encoded TAG_CERT C).length - 3) TAG_CERT_LRC []
      = Except.ok [TAG_CERT_LRC, 0x00] := by
    simp only [Tlv.write]
    rw [if_pos (by show 2 ≤ _; omega)]
    rfl
  have hlen2 : ([TAG_CERT_COMPRESS, 0x01, ci.toU8] : List Nat).length = 3 := rfl
  simp only [write_certificate]
  rw [h1, except_ok_bind, h2, except_ok_bind, hlen2, h3, except_ok_bind]
  simp only [List.append_assoc]
  rfl

/-- C1: for every certificate byte string `C` whose encoded TLV
sequence fits in the maximum object capacity, `write_certificate` of
`C` uncompressed followed by `read_certificate` of the same slot
returns exactly `C`. -/
theorem cert_write_read_roundtrip (st : Store) (slot : SlotId) (C : List Nat)
    (hfit : certObjectLen C.length ≤ CB_OBJ_MAX) :
    ∃ st2, write_certificate st slot (some C) CertInfo.Uncompressed = Except.ok st2 ∧
      read_certificate st2 slot = Outcome.ok C := by
  have hC : C.length ≤ 0xFFFF := by
    have hp := berLenEncode_length_pos C.length
    unfold certObjectLen CB_OBJ_MAX at hfit
    omega
  refine ⟨_, write_certificate_ok st slot C CertInfo.Uncompressed hfit, ?_⟩
  have hp := parse_single_encoded C ([TAG_CERT_COMPRESS, 0x01, CertInfo.toU8 CertInfo.Uncompressed]
    ++ [TAG_CERT_LRC, 0x00]) hC
  unfold read_certificate
  rw [fetch_save_nonempty _ _ _ (by simp [Tlv.encoded])]
  simp only [Tlv.encoded, List.cons_append, List.append_assoc] at hp
  simp only [Tlv.encoded, List.cons_append, List.append_assoc, if_true, hp]

/-- Witness for C1 at a concrete store, slot and certificate. -/
theorem cert_write_read_roundtrip_witness :
    ∃ st2, write_certificate (fun _ => none) 5 (some [0x30, 0x03, 0x02, 0x01, 0x07])
        CertInfo.Uncompressed = Except.ok st2 ∧
      read_certificate st2 5 = Outcome.ok [0x30, 0x03, 0x02, 0x01, 0x07] :=
  cert_write_read_roundtrip (fun _ => none) 5 [0x30, 0x03, 0x02, 0x01, 0x07] (by decide)

/-- C6: writing an absent certificate persists a zero-length object at
the slot's object id (which the card treats as deletion, leaving the
object absent), and a subsequent read of the slot returns an empty
result. -/
theorem cert_delete_then_read_empty (st : Store) (slot : SlotId) (ci : CertInfo) :
    write_certificate st slot none ci = Except.ok (save_object st (SlotId.object_id slot) []) ∧
    (save_object st (SlotId.object_id slot) []) (SlotId.object_id slot) = none ∧
    read_certificate (save_object st (SlotId.object_id slot) []) slot = Outcome.ok [] := by
  refine ⟨rfl, ?_, ?_⟩
  · simp [save_object]
  · unfold read_certificate
    rw [fetch_save_empty]

/-- C7: if the underlying fetch fails the read returns empty with no
error; if the fetched bytes begin with the certificate tag but fail TLV
parsing the read returns empty; if the fetched bytes are non-empty and
do not begin with the certificate tag the raw buffer is returned
unchanged. -/
theorem read_certificate_policy (st : Store) (s1 s2 s3 : SlotId) (b2 b3 : List Nat)
    (h1 : st (SlotId.object_id s1) = none)
    (h2 : st (SlotId.object_id s2) = some b2)
    (h2h : b2.head? = some TAG_CERT)
    (h2p : Tlv.parse_single b2 TAG_CERT = Except.error Error.InvalidObject)
    (h3 : st (SlotId.object_id s3) = some b3)
    (h3ne : b3 ≠ [])
    (h3h : b3.head? ≠ some TAG_CERT) :
    read_certificate st s1 = Outcome.ok [] ∧
    read_certificate st s2 = Outcome.ok [] ∧
    read_certificate st s3 = Outcome.ok b3 := by
  refine ⟨?_, ?_, ?_⟩
  · unfold read_certificate fetch_object
    rw [h1]
  · unfold read_certificate fetch_object
    rw [h2]
    match b2, h2h with
    | b :: t, h2h =>
      have hb : b = TAG_CERT := by simpa using h2h
      rw [hb] at h2p
      simp only [hb, if_true, h2p]
  · unfold read_certificate fetch_object
    rw [h3]
    match b3, h3ne with
    | b :: t, _ =>
      have hb : ¬ b = TAG_CERT := by simpa using h3h
      simp only [if_neg hb]

/-- Witness for C7 on a concrete three-object store. -/
theorem read_certificate_policy_witness :
    read_certificate
        (fun id => if id = 1 then some [0x70, 0x05, 0x01]
          else if id = 2 then some [0x30, 0x01, 0xAA] else none) 0 = Outcome.ok [] ∧
    read_certificate
        (fun id => if id = 1 then some [0x70, 0x05, 0x01]
          else if id = 2 then some [0x30, 0x01, 0xAA] else none) 1 = Outcome.ok [] ∧
    read_certificate
        (fun id => if id = 1 then some [0x70, 0x05, 0x01]
          else if id = 2 then some [0x30, 0x01, 0xAA] else none) 2 =
      Outcome.ok [0x30, 0x01, 0xAA] :=
  read_certificate_policy _ 0 1 2 [0x70, 0x05, 0x01] [0x30, 0x01, 0xAA]
    (by decide) (by decide) (by decide) (by decide) (by decide) (by decide) (by decide)

theorem except_error_bind {ε α β : Type} (e : ε) (f : α → Except ε β) :
    (Except.error e >>= f : Except ε β) = Except.error e := rfl

theorem certObjectLen_encoded (C : List Nat) :
    certObjectLen C.length = (Tlv.encoded TAG_CERT C).length + 5 := by
  unfold certObjectLen
  simp only [Tlv.encoded, List.length_cons, List.length_append]
  omega

/-- C8: an encoding that exceeds the maximum object size fails with
`BufferTooSmall` — the failing TLV write short-circuits the function
before its single trailing `save_object` call, so nothing is persisted
— while an encoding exactly at the boundary succeeds. -/
theorem write_capacity_boundary (st : Store) (slot : SlotId) (C : List Nat) (ci : CertInfo) :
    (CB_OBJ_MAX < certObjectLen C.length →
      write_certificate st slot (some C) ci = Except.error Error.BufferTooSmall) ∧
    (certObjectLen C.length = CB_OBJ_MAX →
      write_certificate st slot (some C) ci =
        Except.ok (save_object st (SlotId.object_id slot)
          (Tlv.encoded TAG_CERT C ++
            ([TAG_CERT_COMPRESS, 0x01, ci.toU8] ++ [TAG_CERT_LRC, 0x00])))) := by
  constructor
  · intro hgt
    have hgt2 : CB_OBJ_MAX < (Tlv.encoded TAG_CERT C).length + 5 := by
      rw [← certObjectLen_encoded]; exact hgt
    have h3 : (Tlv.encoded TAG_CERT_COMPRESS [ci.toU8]).length = 3 := rfl
    have h2l : ([TAG_CERT_COMPRESS, 0x01, ci.toU8] : List Nat).length = 3 := rfl
    simp only [write_certificate, Tlv.write]
    by_cases hc1 : (Tlv.encoded TAG_CERT C).length ≤ CB_OBJ_MAX
    · rw [if_pos hc1, except_ok_bind]
      by_cases hc2 : (Tlv.encoded TAG_CERT_COMPRESS [ci.toU8]).length ≤
          CB_OBJ_MAX - (Tlv.encoded TAG_CERT C).length
      · rw [if_pos hc2, except_ok_bind, h3]
        rw [h3] at hc2
        have hc3 : ¬ ((Tlv.encoded TAG_CERT_LRC []).length ≤
            CB_OBJ_MAX - (Tlv.encoded TAG_CERT C).length - 3) := by
          have he : (Tlv.encoded TAG_CERT_LRC []).length = 2 := rfl
          rw [he]
          unfold CB_OBJ_MAX at *
          omega
        rw [if_neg hc3, except_error_bind]
      · rw [if_neg hc2, except_error_bind]
    · rw [if_neg hc1, except_error_bind]
  · intro heq
    exact write_certificate_ok st slot C ci (le_of_eq heq)

/-- Witness for C8: a 3055-byte certificate overflows the 3063-byte
object (encoding 3064 bytes) and is rejected, a 3054-byte one encodes
to exactly 3063 bytes and is written. -/
theorem write_capacity_boundary_witness :
    write_certificate (fun _ => none) 0 (some (List.replicate 3055 0x41))
        CertInfo.Uncompressed = Except.error Error.BufferTooSmall ∧
    write_certificate (fun _ => none) 0 (some (List.replicate 3054 0x41))
        CertInfo.Uncompressed =
      Except.ok (save_object (fun _ => none) (SlotId.object_id 0)
        (Tlv.encoded TAG_CERT (List.replicate 3054 0x41) ++
          ([TAG_CERT_COMPRESS, 0x01, CertInfo.Uncompressed.toU8] ++ [TAG_CERT_LRC, 0x00]))) := by
  constructor
  · exact (write_capacity_boundary (fun _ => none) 0 (List.replicate 3055 0x41)
      CertInfo.Uncompressed).1 (by rw [List.length_replicate]; decide)
  · exact (write_capacity_boundary (fun _ => none) 0 (List.replicate 3054 0x41)
      CertInfo.Uncompressed).2 (by rw [List.length_replicate]; decide)

/-- C9: the bytes persisted by `write_certificate` are exactly
`0x70 LEN cert`, then `0x71 0x01 certinfo_byte`, then `0xFE 0x00`, with
BER short/long lengths, `certinfo_byte` `0x00` for `Uncompressed` and
`0x01` for `Gzip`, and any other byte an `InvalidObject` decode error
on the `CertInfo` codec. -/
theorem cert_object_wire_format (st : Store) (slot : SlotId) (C : List Nat) (ci : CertInfo)
    (hfit : certObjectLen C.length ≤ CB_OBJ_MAX) :
    write_certificate st slot (some C) ci =
      Except.ok (save_object st (SlotId.object_id slot)
        (([TAG_CERT] ++ berLenEncode C.length ++ C) ++
          ([TAG_CERT_COMPRESS] ++ berLenEncode 1 ++ [ci.toU8]) ++
          ([TAG_CERT_LRC] ++ berLenEncode 0))) ∧
    CertInfo.toU8 CertInfo.Uncompressed = 0x00 ∧
    CertInfo.toU8 CertInfo.Gzip = 0x01 ∧
    CertInfo.try_from 0x00 = Except.ok CertInfo.Uncompressed ∧
    CertInfo.try_from 0x01 = Except.ok CertInfo.Gzip ∧
    (∀ b, b ≠ 0x00 → b ≠ 0x01 → CertInfo.try_from b = Except.error Error.InvalidObject) := by
  refine ⟨?_, rfl, rfl, rfl, rfl, ?_⟩
  · have h := write_certificate_ok st slot C ci hfit
    have hb : (berLenEncode 1 : List Nat) = [1] := rfl
    have hz : (berLenEncode 0 : List Nat) = [0] := rfl
    simpa [Tlv.encoded, hb, hz] using h
  · intro b hb0 hb1
    unfold CertInfo.try_from
    rw [if_neg hb0, if_neg hb1]

/-- Witness for C9: a two-byte certificate written gzip-compressed, and
the `CertInfo` decode rejection at byte `0xAB`. -/
theorem cert_object_wire_format_witness :
    write_certificate (fun _ => none) 3 (some [0x01, 0x02]) CertInfo.Gzip =
      Except.ok (save_object (fun _ => none) (SlotId.object_id 3)
        (([TAG_CERT] ++ berLenEncode (List.length [0x01, 0x02]) ++ [0x01, 0x02]) ++
          ([TAG_CERT_COMPRESS] ++ berLenEncode 1 ++ [CertInfo.Gzip.toU8]) ++
          ([TAG_CERT_LRC] ++ berLenEncode 0))) ∧
    CertInfo.try_from 0xAB = Except.error Error.InvalidObject := by
  refine ⟨?_, ?_⟩
  · exact (cert_object_wire_format (fun _ => none) 3 [0x01, 0x02] CertInfo.Gzip (by decide)).1
  · exact (cert_object_wire_format (fun _ => none) 3 [0x01, 0x02] CertInfo.Gzip
      (by decide)).2.2.2.2.2 0xAB (by decide) (by decide)

/-! ### Algorithm resolver and signing path -/

theorem get_sig_alg_rsa (spki : Spki) (h : spki.algorithm.oid ≠ ID_EC_PUBLIC_KEY) :
    get_sig_alg_from_spki spki = SHA_256_WITH_RSA_ENCRYPTION := by
  unfold get_sig_alg_from_spki
  rw [if_neg (fun he => h he.symm)]

theorem rsa_oid_ne_ec : RSA_ENCRYPTION ≠ ID_EC_PUBLIC_KEY := by decide

theorem get_named_curve_parameter_some (a : AlgorithmIdentifier) (c : List Nat)
    (h : a.parameters = some c) (hv : isValidOidContent c = true) :
    get_named_curve_parameter a = Except.ok c := by
  unfold get_named_curve_parameter
  rw [h]
  exact if_pos hv

/-- C5 (amended): an RSA key with a 128-byte modulus resolves to
`Rsa1024` and one with a 256-byte modulus to `Rsa2048`, both with
certificate signature algorithm SHA-256-with-RSA; an EC key on
secp256r1 resolves to `EccP256` and on secp384r1 to `EccP384`, with
ECDSA-with-SHA-256; an unrecognized curve OID causes an unconditional
abort (`panic!`), not a returned `AlgorithmError` value. -/
theorem alg_resolution (s1 s2 s3 s4 s5 : Spki) (c5 : List Nat)
    (h1a : s1.algorithm.oid = RSA_ENCRYPTION) (h1b : get_em_len s1 = Except.ok 128)
    (h2a : s2.algorithm.oid = RSA_ENCRYPTION) (h2b : get_em_len s2 = Except.ok 256)
    (h3a : s3.algorithm.oid = ID_EC_PUBLIC_KEY) (h3b : s3.algorithm.parameters = some SECP_256_R_1)
    (h4a : s4.algorithm.oid = ID_EC_PUBLIC_KEY) (h4b : s4.algorithm.parameters = some SECP_384_R_1)
    (h5a : s5.algorithm.oid = ID_EC_PUBLIC_KEY) (h5b : s5.algorithm.parameters = some c5)
    (h5c : isValidOidContent c5 = true) (h5d : c5 ≠ SECP_256_R_1) (h5e : c5 ≠ SECP_384_R_1) :
    (get_alg_id s1 = Outcome.ok AlgorithmId.Rsa1024 ∧
      get_sig_alg_from_spki s1 = SHA_256_WITH_RSA_ENCRYPTION) ∧
    (get_alg_id s2 = Outcome.ok AlgorithmId.Rsa2048 ∧
      get_sig_alg_from_spki s2 = SHA_256_WITH_RSA_ENCRYPTION) ∧
    (get_alg_id s3 = Outcome.ok AlgorithmId.EccP256 ∧
      get_sig_alg_from_spki s3 = ECDSA_WITH_SHA_256) ∧
    (get_alg_id s4 = Outcome.ok AlgorithmId.EccP384 ∧
      get_sig_alg_from_spki s4 = ECDSA_WITH_SHA_256) ∧
    get_alg_id s5 = Outcome.panic := by
  have hne : ¬ (ID_EC_PUBLIC_KEY = RSA_ENCRYPTION) := by decide
  have hne2 : ¬ (SECP_384_R_1 = SECP_256_R_1) := by decide
  refine ⟨⟨?_, ?_⟩, ⟨?_, ?_⟩, ⟨?_, ?_⟩, ⟨?_, ?_⟩, ?_⟩
  · simp [get_alg_id, h1a, h1b]
  · exact get_sig_alg_rsa s1 (by rw [h1a]; exact rsa_oid_ne_ec)
  · simp [get_alg_id, h2a, h2b]
  · exact get_sig_alg_rsa s2 (by rw [h2a]; exact rsa_oid_ne_ec)
  · have hnc := get_named_curve_parameter_some s3.algorithm SECP_256_R_1 h3b (by decide)
    simp [get_alg_id, h3a, hnc, hne]
  · unfold get_sig_alg_from_spki
    rw [h3a, if_pos rfl]
  · have hnc := get_named_curve_parameter_some s4.algorithm SECP_384_R_1 h4b (by decide)
    simp [get_alg_id, h4a, hnc, hne, hne2]
  · unfold get_sig_alg_from_spki
    rw [h4a, if_pos rfl]
  · have hnc := get_named_curve_parameter_some s5.algorithm c5 h5b h5c
    simp [get_alg_id, h5a, hnc, hne, h5d, h5e]

/-- Witness for C5 at concrete RSA-1024, RSA-2048, P-256, P-384 and
secp521r1 public-key descriptors. -/
theorem alg_resolution_witness :
    (get_alg_id (sampleRsaSpki 128) = Outcome.ok AlgorithmId.Rsa1024 ∧
      get_sig_alg_from_spki (sampleRsaSpki 128) = SHA_256_WITH_RSA_ENCRYPTION) ∧
    (get_alg_id (sampleRsaSpki 256) = Outcome.ok AlgorithmId.Rsa2048 ∧
      get_sig_alg_from_spki (sampleRsaSpki 256) = SHA_256_WITH_RSA_ENCRYPTION) ∧
    (get_alg_id (sampleEcSpki SECP_256_R_1) = Outcome.ok AlgorithmId.EccP256 ∧
      get_sig_alg_from_spki (sampleEcSpki SECP_256_R_1) = ECDSA_WITH_SHA_256) ∧
    (get_alg_id (sampleEcSpki SECP_384_R_1) = Outcome.ok AlgorithmId.EccP384 ∧
      get_sig_alg_from_spki (sampleEcSpki SECP_384_R_1) = ECDSA_WITH_SHA_256) ∧
    get_alg_id (sampleEcSpki [0x2b, 0x81, 0x04, 0x00, 0x23]) = Outcome.panic :=
  alg_resolution (sampleRsaSpki 128) (sampleRsaSpki 256) (sampleEcSpki SECP_256_R_1)
    (sampleEcSpki SECP_384_R_1) (sampleEcSpki [0x2b, 0x81, 0x04, 0x00, 0x23])
    [0x2b, 0x81, 0x04, 0x00, 0x23]
    rfl (by decide) rfl (by decide) rfl rfl rfl rfl rfl rfl (by decide) (by decide) (by decide)

/-- Counterexample for C5 as frozen: on an EC key with the unrecognized
curve secp521r1 the resolver panics; it does not yield the
`AlgorithmError` error value the claim names. -/
theorem alg_resolution_counterexample :
    get_alg_id (sampleEcSpki [0x2b, 0x81, 0x04, 0x00, 0x23]) = Outcome.panic ∧
    get_alg_id (sampleEcSpki [0x2b, 0x81, 0x04, 0x00, 0x23]) ≠
      Outcome.error Error.AlgorithmError := by
  decide

/-- C10: for every public-key descriptor whose algorithm OID is not
id-ecPublicKey, `get_sig_alg_from_spki` returns SHA-256-with-RSA, and
`signature_algorithm_identifier` returns `Ok` (it can never report an
unsupported key algorithm). -/
theorem sig_alg_total (spki : Spki) (h : spki.algorithm.oid ≠ ID_EC_PUBLIC_KEY) :
    get_sig_alg_from_spki spki = SHA_256_WITH_RSA_ENCRYPTION ∧
    signature_algorithm_identifier spki =
      Except.ok { oid := SHA_256_WITH_RSA_ENCRYPTION, parameters := some [] } := by
  have hg := get_sig_alg_rsa spki h
  refine ⟨hg, ?_⟩
  unfold signature_algorithm_identifier
  rw [hg]

/-- A sample public-key descriptor whose algorithm OID is neither RSA
nor EC (OID 1.2.3). -/
def sampleOtherSpki : Spki :=
  { algorithm := { oid := [0x2a, 0x03], parameters := none }, subject_public_key := [] }

/-- Witness for C10 at a descriptor whose OID is neither RSA nor EC. -/
theorem sig_alg_total_witness :
    get_sig_alg_from_spki sampleOtherSpki = SHA_256_WITH_RSA_ENCRYPTION ∧
    signature_algorithm_identifier sampleOtherSpki =
      Except.ok { oid := SHA_256_WITH_RSA_ENCRYPTION, parameters := some [] } :=
  sig_alg_total sampleOtherSpki (by decide)

/-- C2: on an RSA key actually signed by `try_sign` (modulus byte
length 128 or 256) with room for the DigestInfo, the pre-image handed
to the hardware primitive — observed here through an oracle that
returns its own input — is exactly `0x00 0x01`, `em_len − tlen − 3`
bytes of `0xFF`, one `0x00`, then the DER DigestInfo, and its total
length is exactly `em_len`. -/
theorem try_sign_rsa_preimage (spki : Spki) (d : List Nat) (em_len : Nat)
    (h1 : spki.algorithm.oid = RSA_ENCRYPTION)
    (h2 : get_em_len spki = Except.ok em_len)
    (h3 : em_len = 128 ∨ em_len = 256)
    (h4 : (derDigestInfo d).length + 3 ≤ em_len) :
    try_sign spki d (fun pre _ => Except.ok pre) =
      Outcome.ok ([0x00, 0x01] ++ List.replicate (em_len - (derDigestInfo d).length - 3) 0xFF
        ++ [0x00] ++ derDigestInfo d) ∧
    ([0x00, 0x01] ++ List.replicate (em_len - (derDigestInfo d).length - 3) 0xFF
        ++ [0x00] ++ derDigestInfo d).length = em_len := by
  have hsig : get_sig_alg_from_spki spki = SHA_256_WITH_RSA_ENCRYPTION :=
    get_sig_alg_rsa spki (by rw [h1]; exact rsa_oid_ne_ec)
  have halg : get_alg_id spki =
      Outcome.ok (if em_len = 128 then AlgorithmId.Rsa1024 else AlgorithmId.Rsa2048) := by
    rcases h3 with h3 | h3 <;> subst h3 <;> simp [get_alg_id, h1, h2]
  constructor
  · simp only [try_sign, hsig, if_true, h2, halg]
    rw [if_neg (by omega)]
  · simp only [List.length_append, List.length_cons, List.length_nil, List.length_replicate]
    omega

/-- Witness for C2: an RSA-1024 key and a 32-byte digest; the padded
block is 128 bytes with 74 `0xFF` bytes. -/
theorem try_sign_rsa_preimage_witness :
    try_sign (sampleRsaSpki 128) (List.replicate 32 0x11) (fun pre _ => Except.ok pre) =
      Outcome.ok ([0x00, 0x01] ++
        List.replicate (128 - (derDigestInfo (List.replicate 32 0x11)).length - 3) 0xFF
        ++ [0x00] ++ derDigestInfo (List.replicate 32 0x11)) ∧
    ([0x00, 0x01] ++
        List.replicate (128 - (derDigestInfo (List.replicate 32 0x11)).length - 3) 0xFF
        ++ [0x00] ++ derDigestInfo (List.replicate 32 0x11)).length = 128 :=
  try_sign_rsa_preimage (sampleRsaSpki 128) (List.replicate 32 0x11) 128
    rfl (by decide) (Or.inl rfl) (by decide)

/-- C3 (amended): for an RSA key whose modulus byte length `em_len`
satisfies `em_len < tlen + 3`, `try_sign` aborts — it panics in
algorithm resolution for an unsupported modulus length, or at the
underflowing `em_len − tlen − 3` subtraction — rather than returning
an algorithm error; it never passes a truncated padded block to the
hardware. -/
theorem try_sign_small_modulus_panics (spki : Spki) (d : List Nat) (em_len : Nat)
    (f : List Nat → AlgorithmId → Except Unit (List Nat))
    (h1 : spki.algorithm.oid = RSA_ENCRYPTION)
    (h2 : get_em_len spki = Except.ok em_len)
    (h3 : em_len < (derDigestInfo d).length + 3) :
    try_sign spki d f = Outcome.panic := by
  have hsig : get_sig_alg_from_spki spki = SHA_256_WITH_RSA_ENCRYPTION :=
    get_sig_alg_rsa spki (by rw [h1]; exact rsa_oid_ne_ec)
  by_cases h128 : em_len = 128
  · have halg : get_alg_id spki = Outcome.ok AlgorithmId.Rsa1024 := by
      subst h128; simp [get_alg_id, h1, h2]
    simp only [try_sign, hsig, if_true, h2, halg]
    rw [if_pos h3]
  · by_cases h256 : em_len = 256
    · have halg : get_alg_id spki = Outcome.ok AlgorithmId.Rsa2048 := by
        subst h256; simp [get_alg_id, h1, h2]
      simp only [try_sign, hsig, if_true, h2, halg]
      rw [if_pos h3]
    · have halg : get_alg_id spki = Outcome.panic := by
        simp [get_alg_id, h1, h2, h128, h256]
      simp only [try_sign, hsig, if_true, h2, halg]

/-- Witness for C3 (amended): a 40-byte RSA modulus with a 32-byte
digest (51-byte DigestInfo) makes `try_sign` panic. -/
theorem try_sign_small_modulus_panics_witness :
    try_sign (sampleRsaSpki 40) (List.replicate 32 0x22) (fun _ _ => Except.ok []) =
      Outcome.panic :=
  try_sign_small_modulus_panics (sampleRsaSpki 40) (List.replicate 32 0x22) 40
    (fun _ _ => Except.ok []) rfl (by decide) (by decide)

/-- Counterexample for C3 as frozen: at the concrete 40-byte-modulus
RSA key, `try_sign` panics; it does not return an error value at
all. -/
theorem try_sign_small_modulus_counterexample :
    try_sign (sampleRsaSpki 40) (List.replicate 32 0x33) (fun _ _ => Except.ok []) =
      Outcome.panic ∧
    try_sign (sampleRsaSpki 40) (List.replicate 32 0x33) (fun _ _ => Except.ok []) ≠
      Outcome.error () := by
  decide

/-- C4: at a concrete RSA-1024 key and a concrete P-256 EC key, with a
hardware `sign_data` primitive that reports an error, the RSA branch of
`try_sign` panics (after printing the error) while only the EC branch
returns the failure as a signing error. -/
theorem try_sign_hw_error_paths :
    try_sign (sampleRsaSpki 128) (List.replicate 32 0x22) (fun _ _ => Except.error ()) =
      Outcome.panic ∧
    try_sign (sampleEcSpki SECP_256_R_1) (List.replicate 32 0x22) (fun _ _ => Except.error ()) =
      Outcome.error () := by
  decide
